import Mathlib

/-!
# Verification of the Skylit logistics backend core

Shallow embedding of the intent-resolution and stock-mutation pipeline of the
`skylit_logistic_backend` repository:

* `app/intent_parser.py` — the fast-path entity extractors and keyword classifier
  (regex cascades are embedded as executable scanners with Python `re.search`
  leftmost-match semantics);
* `app/gemini_service.py` — the slow-path classifier's failure fallback
  (`_fallback_parse`), with the external Gemini call abstracted as an outcome
  parameter;
* `app/inventory_service.py` — the store state and the `add_stock` /
  `remove_stock` operations;
* `app/main.py` — the WhatsApp webhook's stock-mutation and dashboard-broadcast
  core.

Character classes (`\w`, `\s`, `\d`) are modelled at ASCII precision, which is
exact for every pattern literal and every input the source matches against.
-/

namespace Skylit

/-! ## Python text primitives -/

/-- `str.lower()` (character-wise, as Python does for the ASCII texts involved). -/
def pyLower (s : String) : String := ⟨s.data.map Char.toLower⟩

/-- `str.upper()`. -/
def pyUpper (s : String) : String := ⟨s.data.map Char.toUpper⟩

/-- Regex `\w`: letters, digits and underscore (ASCII). -/
def isWordChar (c : Char) : Bool := c.isAlphanum || c = '_'

/-- Regex `\s`: Python whitespace. -/
def isSpaceChar (c : Char) : Bool :=
  c = ' ' || c = '\t' || c = '\n' || c = '\r' || c = '\x0b' || c = '\x0c'

/-- Regex `\d` (ASCII digits). -/
def isDigitChar (c : Char) : Bool := c.isDigit

/-- `str.strip()`: drop whitespace from both ends. -/
def pyStrip (s : String) : String :=
  ⟨((s.data.dropWhile isSpaceChar).reverse.dropWhile isSpaceChar).reverse⟩

/-- Numeric value of a digit run, as Python `int(...)` of the captured group. -/
def natOfDigits (ds : List Char) : Nat := ds.foldl (fun n c => 10 * n + (c.toNat - 48)) 0

/-- Word boundary `\b` before a match that starts with a word character:
the previous character (if any) must not be a word character. -/
def boundaryBefore : Option Char → Bool
  | none => true
  | some c => !isWordChar c

/-- Word boundary `\b` after a match that ends with a word character:
the next character (if any) must not be a word character. -/
def boundaryAfterList : List Char → Bool
  | [] => true
  | c :: _ => !isWordChar c

/-- Match a literal character sequence at the head, returning the rest. -/
def dropLit : List Char → List Char → Option (List Char)
  | [], cs => some cs
  | _ :: _, [] => none
  | w :: ws, c :: cs => if c = w then dropLit ws cs else none

/-- Case-insensitive `dropLit` (the pattern literal is given in lowercase),
modelling a literal under `re.IGNORECASE` while keeping the subject text as is. -/
def dropLitCI : List Char → List Char → Option (List Char)
  | [], cs => some cs
  | _ :: _, [] => none
  | w :: ws, c :: cs => if c.toLower = w then dropLitCI ws cs else none

/-- Scan positions left to right (Python `re.search` leftmost-match order),
returning the first position where the attempt `f` succeeds. -/
def scanFor {α : Type} (f : List Char → Option α) : List Char → Option α
  | [] => f []
  | c :: cs =>
    match f (c :: cs) with
    | some a => some a
    | none => scanFor f cs

/-! ## Pattern pieces

A pattern of the source that is a sequence of literal words separated by `\s+`
or `\s*` is embedded as a `List PatPiece`.  Matching a whitespace run greedily
is exact here because in every embedded pattern a whitespace piece is followed
by a word starting with a non-space character, so the engine never needs to
backtrack into the run. -/

inductive PatPiece where
  | word (w : String)
  | sp1
  | sp0
deriving Repr

/-- Match a piece sequence at the head of `cs`, returning the rest. -/
def piecesRest : List PatPiece → List Char → Option (List Char)
  | [], cs => some cs
  | .word w :: ps, cs =>
    match dropLit w.data cs with
    | some r => piecesRest ps r
    | none => none
  | .sp1 :: ps, cs =>
    if (cs.takeWhile isSpaceChar).isEmpty then none
    else piecesRest ps (cs.dropWhile isSpaceChar)
  | .sp0 :: ps, cs => piecesRest ps (cs.dropWhile isSpaceChar)

/-- `re.search(r'\b<pieces>\b', s)` as a Boolean, for piece sequences that
start and end with word characters (all keyword patterns do). -/
def searchBoundedAux (ps : List PatPiece) : Option Char → List Char → Bool
  | _, [] => false
  | prev, c :: cs =>
    (boundaryBefore prev &&
      (match piecesRest ps (c :: cs) with
       | some r => boundaryAfterList r
       | none => false))
    || searchBoundedAux ps (some c) cs

def searchBounded (cs : List Char) (ps : List PatPiece) : Bool :=
  searchBoundedAux ps none cs

/-- `re.search(r'<pieces>', s)` as a Boolean (no word boundaries). -/
def searchPiecesAux (ps : List PatPiece) : List Char → Bool
  | [] => (piecesRest ps []).isSome
  | c :: cs => (piecesRest ps (c :: cs)).isSome || searchPiecesAux ps cs

def searchPieces (cs : List Char) (ps : List PatPiece) : Bool :=
  searchPiecesAux ps cs

/-! ## `app/intent_parser.py` — entity extractors -/

/-- Character class `[A-Za-z0-9\-]` (pattern `[A-Z0-9\-]` under `IGNORECASE`). -/
def skuClass (c : Char) : Bool := c.isAlpha || c.isDigit || c = '-'

/-- Pattern 1 of `extract_sku_from_text`: `r'sku[:\s]+([A-Z0-9\-]+)'` with
`IGNORECASE`, scanned over the lowered text (the final `.upper()` makes
lowering transparent).  The separator run `[:\s]+` is matched greedily, which
is exact because the capture class contains neither `:` nor whitespace. -/
def skuExplicitAttempt (cs : List Char) : Option String :=
  match dropLit "sku".data cs with
  | none => none
  | some r =>
    if (r.takeWhile (fun d => d = ':' || isSpaceChar d)).isEmpty then none
    else
      let cap := (r.dropWhile (fun d => d = ':' || isSpaceChar d)).takeWhile skuClass
      if cap.isEmpty then none else some (pyUpper ⟨cap⟩)

/-- Take exactly `n` characters satisfying `p` (regex `{n}` repetition). -/
def takeCount (p : Char → Bool) : Nat → List Char → Option (List Char × List Char)
  | 0, cs => some ([], cs)
  | _ + 1, [] => none
  | n + 1, c :: cs =>
    if p c then
      match takeCount p n cs with
      | some (tk, rest) => some (c :: tk, rest)
      | none => none
    else none

/-- The product-code body `[A-Z]{3}-[A-Z]{3}-\d{3}` (case-insensitive via the
lowered subject), returning the captured characters and the rest. -/
def codeAt (cs : List Char) : Option (List Char × List Char) :=
  match takeCount Char.isAlpha 3 cs with
  | none => none
  | some (a, r1) =>
    match r1 with
    | '-' :: r2 =>
      match takeCount Char.isAlpha 3 r2 with
      | none => none
      | some (b, r3) =>
        match r3 with
        | '-' :: r4 =>
          match takeCount isDigitChar 3 r4 with
          | none => none
          | some (d, r5) => some (a ++ '-' :: b ++ '-' :: d, r5)
        | _ => none
    | _ => none

/-- Pattern 2 of `extract_sku_from_text`: `r'\b([A-Z]{3}-[A-Z]{3}-\d{3})\b'`
with `IGNORECASE`, result uppercased. -/
def skuCodeAux (prev : Option Char) : List Char → Option String
  | [] => none
  | c :: cs =>
    match (if boundaryBefore prev then codeAt (c :: cs) else none) with
    | some (cap, rest) =>
      if boundaryAfterList rest then some (pyUpper ⟨cap⟩) else skuCodeAux (some c) cs
    | none => skuCodeAux (some c) cs

/-- Pattern 3 of `extract_sku_from_text`: the static product-name dictionary
(each key `r'<a>\s*<b>'` under `IGNORECASE`), in source order. -/
def product_mappings : List (List PatPiece × String) :=
  [([.word "phone", .sp0, .word "charger"], "PHN-CHG-001"),
   ([.word "usb", .sp0, .word "cable"], "USB-CBL-001"),
   ([.word "hdmi", .sp0, .word "cable"], "HDM-CBL-001"),
   ([.word "laptop", .sp0, .word "bag"], "LAP-BAG-001"),
   ([.word "wireless", .sp0, .word "mouse"], "MSE-WRL-001"),
   ([.word "mechanical", .sp0, .word "keyboard"], "KBD-MEC-001")]

def mappingLookup : List (List PatPiece × String) → List Char → Option String
  | [], _ => none
  | (ps, sku) :: rest, cs =>
    if searchPieces cs ps then some sku else mappingLookup rest cs

/-- `extract_sku_from_text(text)`: explicit `sku:` marker, then code shape,
then product-name dictionary; first successful tier wins.  All three tiers are
case-insensitive and the returned capture is uppercased, so the whole function
is computed over the lowered text. -/
def extract_sku_from_text (text : String) : Option String :=
  let cs := (pyLower text).data
  match scanFor skuExplicitAttempt cs with
  | some s => some s
  | none =>
    match skuCodeAux none cs with
    | some s => some s
    | none => mappingLookup product_mappings cs

/-- Pattern `r'(\d+)\s*units?'`: a digit run, optional whitespace, literal
`unit` (the trailing `s?` cannot affect matching).  Greedy digits are exact:
giving digits back would put a digit where `unit` must start. -/
def qtyAttemptUnits (cs : List Char) : Option Nat :=
  match cs with
  | [] => none
  | c :: _ =>
    if isDigitChar c then
      let ds := cs.takeWhile isDigitChar
      let r2 := (cs.dropWhile isDigitChar).dropWhile isSpaceChar
      if (dropLit "unit".data r2).isSome then some (natOfDigits ds) else none
    else none

/-- Patterns of shape `r'<kw><sep>+(\d+)'` (`add\s+`, `ship\s+`,
`quantity[:\s]+`, `unit[:\s]+`).  The separator run is matched greedily, which
is exact because the capture class `\d` contains no separator character. -/
def qtyAttemptKeySep (w : String) (sepCls : Char → Bool) (cs : List Char) : Option Nat :=
  match dropLit w.data cs with
  | none => none
  | some r =>
    if (r.takeWhile sepCls).isEmpty then none
    else
      let ds := (r.dropWhile sepCls).takeWhile isDigitChar
      if ds.isEmpty then none else some (natOfDigits ds)

/-- Pattern `r'(\d+)\s+(?:of|x)'`. -/
def qtyAttemptOfX (cs : List Char) : Option Nat :=
  match cs with
  | [] => none
  | c :: _ =>
    if isDigitChar c then
      let ds := cs.takeWhile isDigitChar
      let r1 := cs.dropWhile isDigitChar
      if (r1.takeWhile isSpaceChar).isEmpty then none
      else
        let r2 := r1.dropWhile isSpaceChar
        if (dropLit "of".data r2).isSome || (dropLit "x".data r2).isSome then
          some (natOfDigits ds)
        else none
    else none

/-- The fallback `re.findall(r'\b(\d+)\b', text)`, of which only the first
match is used: the first word-bounded digit run.  Greedy digits are exact:
a shorter run would be followed by a digit, which is a word character. -/
def firstBareIntAux : Option Char → List Char → Option Nat
  | _, [] => none
  | prev, c :: cs =>
    if boundaryBefore prev && isDigitChar c then
      let ds := (c :: cs).takeWhile isDigitChar
      let rest := (c :: cs).dropWhile isDigitChar
      if boundaryAfterList rest then some (natOfDigits ds) else firstBareIntAux (some c) cs
    else firstBareIntAux (some c) cs

/-- `extract_quantity(text)`: the six prioritized shapes in source order, then
the first bare integer, else `None`.  All patterns carry `IGNORECASE` and
return only the numeric group, so the function is computed over the lowered
text. -/
def extract_quantity (text : String) : Option Nat :=
  let cs := (pyLower text).data
  match scanFor qtyAttemptUnits cs with
  | some n => some n
  | none =>
  match scanFor (qtyAttemptKeySep "add" isSpaceChar) cs with
  | some n => some n
  | none =>
  match scanFor (qtyAttemptKeySep "ship" isSpaceChar) cs with
  | some n => some n
  | none =>
  match scanFor qtyAttemptOfX cs with
  | some n => some n
  | none =>
  match scanFor (qtyAttemptKeySep "quantity" (fun c => c = ':' || isSpaceChar c)) cs with
  | some n => some n
  | none =>
  match scanFor (qtyAttemptKeySep "unit" (fun c => c = ':' || isSpaceChar c)) cs with
  | some n => some n
  | none => firstBareIntAux none cs

/-- The lazy group `([<cls>\s]+?)(?:\s|$)`: the shortest non-empty run of
class characters whose successor is whitespace or the end of the text. -/
def lazyCapture (cls : Char → Bool) : List Char → Option (List Char)
  | [] => none
  | c :: cs =>
    if cls c then
      match cs with
      | [] => some [c]
      | d :: _ =>
        if isSpaceChar d then some [c]
        else
          match lazyCapture cls cs with
          | some cap => some (c :: cap)
          | none => none
    else none

/-- Backtracking over the greedy separator run `<sep>+` that precedes a lazy
group whose class contains whitespace: the engine first gives the group the
position after the full run (`k = n`), then on failure hands separator
characters back one at a time (`k` descending to `1`). -/
def sepLazyBacktrack (cls : Char → Bool) (r0 : List Char) : Nat → Option (List Char)
  | 0 => none
  | k + 1 =>
    match lazyCapture cls (r0.drop (k + 1)) with
    | some cap => some cap
    | none => sepLazyBacktrack cls r0 k

/-- Attempt, at one position, a pattern `r'<kw><sep>+([<cls>]+?)(?:\s|$)'`
under `IGNORECASE`, returning the stripped group from the original text. -/
def lazyGroupAttempt (kw : String) (sepCls capCls : Char → Bool) (cs : List Char) :
    Option String :=
  match dropLitCI kw.data cs with
  | none => none
  | some r =>
    let n := (r.takeWhile sepCls).length
    if n = 0 then none
    else (sepLazyBacktrack capCls r n).map (fun cap => pyStrip ⟨cap⟩)

/-- Pattern `r'warehouse\s+([A-Za-z0-9]+)'` (greedy group; exact because the
group class excludes whitespace). -/
def destWarehouseAttempt (cs : List Char) : Option String :=
  match dropLitCI "warehouse".data cs with
  | none => none
  | some r =>
    if (r.takeWhile isSpaceChar).isEmpty then none
    else
      let cap := (r.dropWhile isSpaceChar).takeWhile (fun c => c.isAlpha || c.isDigit)
      if cap.isEmpty then none else some (pyStrip ⟨cap⟩)

/-- Capture class `[A-Za-z0-9\s]` of the destination patterns. -/
def destCls (c : Char) : Bool := c.isAlpha || c.isDigit || isSpaceChar c

/-- `extract_destination(text)`: `to`, `destination:`, `warehouse <x>` in
order, defaulting to the literal `"warehouse"`. -/
def extract_destination (text : String) : String :=
  let cs := text.data
  match scanFor (lazyGroupAttempt "to" isSpaceChar destCls) cs with
  | some d => d
  | none =>
  match scanFor (lazyGroupAttempt "destination" (fun c => c = ':' || isSpaceChar c) destCls) cs with
  | some d => d
  | none =>
  match scanFor destWarehouseAttempt cs with
  | some d => d
  | none => "warehouse"

/-- `re.sub(r'\s+(to|at|in)$', '', seller, flags=re.IGNORECASE)`: remove one
final whitespace run followed by `to`/`at`/`in` at the end of the string.
Computed on the reversed character list; the stopwords appear reversed. -/
def stripStopAux (rcs : List Char) (wrev : List Char) : Option (List Char) :=
  match dropLitCI wrev rcs with
  | none => none
  | some r =>
    if (r.takeWhile isSpaceChar).isEmpty then none
    else some (r.dropWhile isSpaceChar)

def stripTrailingStopword (s : String) : String :=
  let rcs := s.data.reverse
  match stripStopAux rcs "ot".data with
  | some r => ⟨r.reverse⟩
  | none =>
  match stripStopAux rcs "ta".data with
  | some r => ⟨r.reverse⟩
  | none =>
  match stripStopAux rcs "ni".data with
  | some r => ⟨r.reverse⟩
  | none => s

/-- Capture class `[A-Za-z\s]` of the seller patterns. -/
def sellerCls (c : Char) : Bool := c.isAlpha || isSpaceChar c

/-- `extract_seller(text)`: `seller:`, `from`, `by` in order; the captured
name is stripped and a trailing `to`/`at`/`in` token removed. -/
def extract_seller (text : String) : Option String :=
  let cs := text.data
  match scanFor (lazyGroupAttempt "seller" (fun c => c = ':' || isSpaceChar c) sellerCls) cs with
  | some s => some (stripTrailingStopword s)
  | none =>
  match scanFor (lazyGroupAttempt "from" isSpaceChar sellerCls) cs with
  | some s => some (stripTrailingStopword s)
  | none =>
  match scanFor (lazyGroupAttempt "by" isSpaceChar sellerCls) cs with
  | some s => some (stripTrailingStopword s)
  | none => none

/-! ## `app/intent_parser.py` — the fast-path classifier -/

/-- Scanner for `r'\bwhat.*in\s+stock\b'`: after a position matching `in\s+stock\b`
is sought anywhere to the right of `what`, with `.*` not crossing a newline. -/
def inStockFrom : List Char → Bool
  | [] => false
  | c :: cs =>
    (match dropLit "in".data (c :: cs) with
     | some r1 =>
       if (r1.takeWhile isSpaceChar).isEmpty then false
       else
         match dropLit "stock".data (r1.dropWhile isSpaceChar) with
         | some r2 => boundaryAfterList r2
         | none => false
     | none => false)
    || (if c = '\n' then false else inStockFrom cs)

def whatInStockAux : Option Char → List Char → Bool
  | _, [] => false
  | prev, c :: cs =>
    (boundaryBefore prev &&
      (match dropLit "what".data (c :: cs) with
       | some r => inStockFrom r
       | none => false))
    || whatInStockAux (some c) cs

/-- The `add_patterns` list (`\badd\b`, `\brestock\b`, `\binbound\b`,
`\breceive[d]?\b`, `\bnew\s+stock\b`); `receive[d]?` is equivalent to the
bounded word `received` or the bounded word `receive`. -/
def add_patterns_match (cs : List Char) : Bool :=
  searchBounded cs [.word "add"] ||
  searchBounded cs [.word "restock"] ||
  searchBounded cs [.word "inbound"] ||
  (searchBounded cs [.word "received"] || searchBounded cs [.word "receive"]) ||
  searchBounded cs [.word "new", .sp1, .word "stock"]

/-- The `ship_patterns` list. -/
def ship_patterns_match (cs : List Char) : Bool :=
  searchBounded cs [.word "ship"] ||
  searchBounded cs [.word "send"] ||
  searchBounded cs [.word "outbound"] ||
  searchBounded cs [.word "dispatch"] ||
  searchBounded cs [.word "remove"] ||
  searchBounded cs [.word "take", .sp1, .word "out"]

/-- The `check_patterns` list. -/
def check_patterns_match (cs : List Char) : Bool :=
  searchBounded cs [.word "check"] ||
  searchBounded cs [.word "stock"] ||
  searchBounded cs [.word "inventory"] ||
  searchBounded cs [.word "how", .sp1, .word "many"] ||
  searchBounded cs [.word "available"] ||
  whatInStockAux none cs ||
  searchBounded cs [.word "show", .sp1, .word "me"] ||
  searchBounded cs [.word "list"]

/-- The `general_patterns` list; `thanks?` is equivalent to the bounded word
`thanks` or the bounded word `thank`. -/
def general_patterns_match (cs : List Char) : Bool :=
  searchBounded cs [.word "hello"] ||
  searchBounded cs [.word "hi"] ||
  searchBounded cs [.word "hey"] ||
  searchBounded cs [.word "help"] ||
  (searchBounded cs [.word "thanks"] || searchBounded cs [.word "thank"]) ||
  searchBounded cs [.word "bye"]

inductive Intent where
  | ADD_STOCK
  | SHIP_STOCK
  | CHECK_STOCK
  | GENERAL
  | UNKNOWN
deriving Repr, DecidableEq

/-- The dict returned by `parse_intent_from_text`; a field is `none` exactly
when the source dict carries no such key (or carries `None`). -/
structure IntentResult where
  intent : Intent
  sku : Option String := none
  quantity : Option Nat := none
  seller : Option String := none
  destination : Option String := none
  confidence : String
deriving Repr, DecidableEq

/-- `parse_intent_from_text(text)`: the four keyword categories in strict
priority order, first match wins, else UNKNOWN/low. -/
def parse_intent_from_text (text : String) : IntentResult :=
  let tl := (pyLower text).data
  if add_patterns_match tl then
    { intent := .ADD_STOCK, sku := extract_sku_from_text text,
      quantity := extract_quantity text, seller := extract_seller text,
      confidence := "high" }
  else if ship_patterns_match tl then
    { intent := .SHIP_STOCK, sku := extract_sku_from_text text,
      quantity := extract_quantity text,
      destination := some (extract_destination text), confidence := "high" }
  else if check_patterns_match tl then
    { intent := .CHECK_STOCK, sku := extract_sku_from_text text, confidence := "high" }
  else if general_patterns_match tl then
    { intent := .GENERAL, confidence := "high" }
  else
    { intent := .UNKNOWN, confidence := "low" }

/-! ## `app/gemini_service.py` — the slow-path classifier's fallback

`parse_message` wraps the whole Gemini pipeline in `try/except`: any failure
(no client installed, transport/configure error, empty credential, unparsable
JSON with no extractable object) ends in `_fallback_parse(text)`.  The
external call is abstracted as a `GeminiOutcome` parameter; the Python dicts
are association lists in source key order. -/

inductive JsonVal where
  | str (s : String)
  | num (n : Nat)
  | emptyObj
deriving Repr, DecidableEq

/-- The `action` heuristic of `_fallback_parse`:
`"ADD"` on `r'\b(add|received|restock)\b'`, else `"SHIP"` on
`r'\b(ship|shipped|send|dispatched)\b'`, else `"CHECK"` (all `IGNORECASE`,
computed over the lowered text). -/
def fallback_action (cs : List Char) : String :=
  if searchBounded cs [.word "add"] || searchBounded cs [.word "received"] ||
      searchBounded cs [.word "restock"] then "ADD"
  else if searchBounded cs [.word "ship"] || searchBounded cs [.word "shipped"] ||
      searchBounded cs [.word "send"] || searchBounded cs [.word "dispatched"] then "SHIP"
  else "CHECK"

/-- The SKU pattern of `_fallback_parse`: `r"SKU[:#]?\s*([A-Za-z0-9-]+)"`
under `IGNORECASE`, capture taken from the original text.  The optional
separator is tried consumed first, then skipped (regex `?` backtracking). -/
def fbSkuAttempt (cs : List Char) : Option String :=
  match dropLitCI "sku".data cs with
  | none => none
  | some r =>
    let attempt := fun (r1 : List Char) =>
      let cap := (r1.dropWhile isSpaceChar).takeWhile skuClass
      if cap.isEmpty then none else some (String.mk cap)
    match r with
    | [] => attempt r
    | c :: rest =>
      if c = ':' || c = '#' then
        match attempt rest with
        | some s => some s
        | none => attempt r
      else attempt r

/-- `re.search(r"(\d+)", text)`: the first digit run, no word boundaries. -/
def firstNumberAux : List Char → Option Nat
  | [] => none
  | c :: cs =>
    if isDigitChar c then some (natOfDigits ((c :: cs).takeWhile isDigitChar))
    else firstNumberAux cs

/-- `_fallback_parse(text)`. -/
def fallback_parse (text : String) : List (String × JsonVal) :=
  let qty := (firstNumberAux text.data).getD 0
  let sku :=
    match scanFor fbSkuAttempt text.data with
    | some s => s
    | none => pyStrip text
  [("action", .str (fallback_action (pyLower text).data)),
   ("seller", .str ""),
   ("sku", .str sku),
   ("qty", .num qty),
   ("location", .str "")]

/-- Outcome of the Gemini call pipeline inside `parse_message`: either a JSON
object was obtained from the model response (directly or after extracting the
first `{...}` block), or the pipeline failed in any of the ways the
`try/except` structure covers (no client installed, transport error, empty or
rejected credential, unparsable JSON). -/
inductive GeminiOutcome where
  | parsed (fields : List (String × JsonVal))
  | failed
deriving Repr, DecidableEq

/-- `parse_message(text)` as a function of the abstracted Gemini outcome. -/
def parse_message (outcome : GeminiOutcome) (text : String) : List (String × JsonVal) :=
  match outcome with
  | .parsed j => j
  | .failed => fallback_parse text

/-! ## `app/models.py` + `app/inventory_service.py` — the store and the engine

The relational store is a record of rows in insertion order; autoincrement
primary keys are the `next*Id` counters.  `db.commit()` / `db.refresh()` are
identities in this pure model, and the `try/except` wrappers of
`add_stock` / `remove_stock` only catch persistence exceptions, which the pure
store never raises, so the embedded operations are the non-exception paths. -/

inductive TransactionType where
  | INBOUND
  | OUTBOUND
deriving Repr, DecidableEq

structure Seller where
  id : Nat
  name : String
  business_id : String
  contact_info : Option String := none
deriving Repr, DecidableEq

structure Product where
  id : Nat
  seller_id : Nat
  sku : String
  product_name : String
  current_stock : Int
deriving Repr, DecidableEq

structure Transaction where
  id : Nat
  product_id : Nat
  staff_id : Option Nat := none
  type : TransactionType
  quantity : Int
  destination : Option String := none
deriving Repr, DecidableEq

structure Store where
  sellers : List Seller
  products : List Product
  transactions : List Transaction
  nextSellerId : Nat
  nextProductId : Nat
  nextTransactionId : Nat
deriving Repr, DecidableEq

/-- `get_product_by_sku(db, sku)` (no seller filter, `.first()`). -/
def get_product_by_sku (st : Store) (sku : String) : Option Product :=
  st.products.find? (fun p => p.sku == sku)

/-- `get_seller_by_name(db, name)` (case-insensitive `ilike`, `.first()`). -/
def get_seller_by_name (st : Store) (name : String) : Option Seller :=
  st.sellers.find? (fun s => pyLower s.name == pyLower name)

/-- `create_seller(db, name, business_id, contact_info)`. -/
def create_seller (st : Store) (name business_id : String) (contact : Option String) :
    Seller × Store :=
  let s : Seller := { id := st.nextSellerId, name := name, business_id := business_id,
                      contact_info := contact }
  (s, { st with sellers := st.sellers ++ [s], nextSellerId := st.nextSellerId + 1 })

/-- `create_product(db, seller_id, sku, product_name, initial_stock)`. -/
def create_product (st : Store) (seller_id : Nat) (sku product_name : String)
    (initial_stock : Int) : Product × Store :=
  let p : Product := { id := st.nextProductId, seller_id := seller_id, sku := sku,
                       product_name := product_name, current_stock := initial_stock }
  (p, { st with products := st.products ++ [p], nextProductId := st.nextProductId + 1 })

/-- `log_transaction(db, product_id, transaction_type, quantity, staff_id, destination)`. -/
def log_transaction (st : Store) (product_id : Nat) (ty : TransactionType) (quantity : Int)
    (staff_id : Option Nat) (destination : Option String) : Transaction × Store :=
  let t : Transaction := { id := st.nextTransactionId, product_id := product_id,
                           staff_id := staff_id, type := ty, quantity := quantity,
                           destination := destination }
  (t, { st with transactions := st.transactions ++ [t],
                nextTransactionId := st.nextTransactionId + 1 })

/-- In-place mutation `product.current_stock = v` of an object obtained by
`get_product_by_sku`: update the first product whose SKU matches. -/
def setStockFirstSku : List Product → String → Int → List Product
  | [], _, _ => []
  | p :: rest, sku, v =>
    if p.sku == sku then { p with current_stock := v } :: rest
    else p :: setStockFirstSku rest sku v

/-- Python `str.title()` (ASCII): a letter is uppercased when the previous
character is not a letter, lowercased otherwise. -/
def pyTitleAux : Bool → List Char → List Char
  | _, [] => []
  | prevAlpha, c :: cs =>
    if c.isAlpha then
      (if prevAlpha then c.toLower else c.toUpper) :: pyTitleAux true cs
    else
      c :: pyTitleAux false cs

def pyTitle (s : String) : String := ⟨pyTitleAux false s.data⟩

/-- `sku.replace("-", " ")`. -/
def hyphenToSpace (s : String) : String :=
  ⟨s.data.map (fun c => if c = '-' then ' ' else c)⟩

/-- The result dict of the stock operations.  The `product` entry (the ORM
object, a projection of the state) and the failure-path `error` entry are not
carried; `new_stock` is present exactly when the source dict has the key. -/
structure OpResult where
  success : Bool
  message : String
  new_stock : Option Int := none
deriving Repr, DecidableEq

/-- Seller resolution prefix of `add_stock`: find or create the named seller
(business id `"BIZ-" + name.upper().replace(" ", "-")`), or `None` when no
name is given. -/
def resolveSeller (st : Store) : Option String → Option Seller × Store
  | none => (none, st)
  | some sn =>
    match get_seller_by_name st sn with
    | some s => (some s, st)
    | none =>
      let business_id := "BIZ-" ++ (pyUpper sn).replace " " "-"
      let (s, st1) := create_seller st sn business_id none
      (some s, st1)

/-- The `if not seller:` block inside the product-creation branch of
`add_stock`: keep the already resolved seller, else find or create the
sentinel "Default Seller". -/
def ensureSeller (st : Store) : Option Seller → Seller × Store
  | some s => (s, st)
  | none =>
    match get_seller_by_name st "Default Seller" with
    | some s => (s, st)
    | none => create_seller st "Default Seller" "BIZ-DEFAULT" none

/-- `add_stock(db, sku, quantity, seller_name, staff_id)` (non-exception path). -/
def add_stock (st : Store) (sku : String) (quantity : Int) (seller_name : Option String)
    (staff_id : Option Nat) : OpResult × Store :=
  let rs := resolveSeller st seller_name
  let st1 := rs.2
  match get_product_by_sku st1 sku with
  | some p =>
    let newStock := p.current_stock + quantity
    let st2 := { st1 with products := setStockFirstSku st1.products sku newStock }
    let st3 := (log_transaction st2 p.id .INBOUND quantity staff_id none).2
    ({ success := true,
       message := "✅ Added " ++ toString quantity ++ " units of " ++ p.product_name ++
         " (SKU: " ++ sku ++ "). New stock: " ++ toString newStock,
       new_stock := some newStock }, st3)
  | none =>
    let es := ensureSeller st1 rs.1
    let cp := create_product es.2 es.1.id sku (pyTitle (hyphenToSpace sku)) 0
    let p := cp.1
    let st3 := cp.2
    let newStock := p.current_stock + quantity
    let st4 := { st3 with products := setStockFirstSku st3.products sku newStock }
    let st5 := (log_transaction st4 p.id .INBOUND quantity staff_id none).2
    ({ success := true,
       message := "✅ Added " ++ toString quantity ++ " units of " ++ p.product_name ++
         " (SKU: " ++ sku ++ "). New stock: " ++ toString newStock,
       new_stock := some newStock }, st5)

/-- `remove_stock(db, sku, quantity, destination, staff_id)` (non-exception path). -/
def remove_stock (st : Store) (sku : String) (quantity : Int) (destination : Option String)
    (staff_id : Option Nat) : OpResult × Store :=
  match get_product_by_sku st sku with
  | none =>
    ({ success := false,
       message := "❌ Product with SKU '" ++ sku ++ "' not found in inventory." }, st)
  | some p =>
    if p.current_stock < quantity then
      ({ success := false,
         message := "❌ Insufficient stock for " ++ p.product_name ++ ". Available: " ++
           toString p.current_stock ++ ", Requested: " ++ toString quantity }, st)
    else
      let newStock := p.current_stock - quantity
      let st1 := { st with products := setStockFirstSku st.products sku newStock }
      let st2 := (log_transaction st1 p.id .OUTBOUND quantity staff_id destination).2
      ({ success := true,
         message := "✅ Shipped " ++ toString quantity ++ " units of " ++ p.product_name ++
           " (SKU: " ++ sku ++ ") to " ++ destination.getD "destination" ++
           ". Remaining stock: " ++ toString newStock,
         new_stock := some newStock }, st2)

/-- Current stock reported for a SKU: the stock of the first product with
that SKU, `0` when the product is absent. -/
def stockOf (st : Store) (sku : String) : Int :=
  ((get_product_by_sku st sku).map (fun p => p.current_stock)).getD 0

/-! ## `app/main.py` — the WhatsApp webhook's mutation/broadcast core

`whatsapp_webhook` (and the materially identical `twilio_webhook`): after
`parse_message` produced `ai_data`, the product is looked up by a join of
`Product` and `Seller` filtered on `Seller.name == ai_data["seller"]` and
`Product.sku == ai_data["sku"]`; then the ADD / SHIP / other-action branches
mutate the store and every non-early-return path ends in a
`manager.broadcast` of `{sku, stock, seller, action}`.  The conversation log,
reply generation and message delivery are external collaborators and carry no
inventory state, so they are not part of the state here. -/

/-- The slice of the `parse_message` result dict the webhook reads. -/
structure AiData where
  action : String
  seller : String
  sku : String
  qty : Int
  location : String
deriving Repr, DecidableEq

/-- The event handed to `manager.broadcast`. -/
structure BroadcastEvent where
  sku : String
  stock : Int
  seller : String
  action : String
deriving Repr, DecidableEq

/-- `product.seller.name` (the seller row the product's foreign key points to). -/
def sellerNameOf (st : Store) (p : Product) : Option String :=
  (st.sellers.find? (fun s => s.id == p.seller_id)).map (fun s => s.name)

/-- The join filter `Seller.name == ai["seller"] and Product.sku == ai["sku"]`. -/
def webhookPred (st : Store) (ai : AiData) (p : Product) : Bool :=
  p.sku == ai.sku && sellerNameOf st p == some ai.seller

/-- Outcome of one webhook turn: the returned status and the broadcast event,
if one was emitted. -/
structure WebhookResult where
  ok : Bool
  broadcast : Option BroadcastEvent
deriving Repr, DecidableEq

/-- In-place mutation of the product object found by the webhook's join query. -/
def setStockFirstWhere : List Product → (Product → Bool) → Int → List Product
  | [], _, _ => []
  | p :: rest, pred, v =>
    if pred p then { p with current_stock := v } :: rest
    else p :: setStockFirstWhere rest pred v

/-- The stock-mutation/broadcast core of `whatsapp_webhook` (lines 111-160 of
`app/main.py`).  The not-found and insufficient-stock paths return the error
status early, before the broadcast; the ADD branch increments
`current_stock` without adding any `Transaction`; the SHIP branch decrements
stock and appends an OUTBOUND `Transaction`; every other action falls through
with no mutation; all three surviving paths broadcast. -/
def whatsapp_webhook_core (st : Store) (ai : AiData) : WebhookResult × Store :=
  match st.products.find? (webhookPred st ai) with
  | none => ({ ok := false, broadcast := none }, st)
  | some p =>
    if ai.action = "ADD" then
      let newStock := p.current_stock + ai.qty
      let st1 := { st with products := setStockFirstWhere st.products (webhookPred st ai) newStock }
      ({ ok := true,
         broadcast := some { sku := p.sku, stock := newStock,
                             seller := (sellerNameOf st p).getD "", action := ai.action } }, st1)
    else if ai.action = "SHIP" then
      if p.current_stock < ai.qty then
        ({ ok := false, broadcast := none }, st)
      else
        let newStock := p.current_stock - ai.qty
        let st1 := { st with products := setStockFirstWhere st.products (webhookPred st ai) newStock }
        let st2 := { st1 with
          transactions := st1.transactions ++
            [{ id := st1.nextTransactionId, product_id := p.id, staff_id := none,
               type := .OUTBOUND, quantity := ai.qty, destination := some ai.location }],
          nextTransactionId := st1.nextTransactionId + 1 }
        ({ ok := true,
           broadcast := some { sku := p.sku, stock := newStock,
                               seller := (sellerNameOf st p).getD "", action := ai.action } }, st2)
    else
      ({ ok := true,
         broadcast := some { sku := p.sku, stock := p.current_stock,
                             seller := (sellerNameOf st p).getD "", action := ai.action } }, st)

/-! ## The reconciliation invariant (spec data model) -/

/-- Sum of INBOUND transaction quantities recorded for a product. -/
def inboundTotal (st : Store) (pid : Nat) : Int :=
  (st.transactions.filter
    (fun t => t.product_id == pid && t.type == TransactionType.INBOUND)).foldl
    (fun a t => a + t.quantity) 0

/-- Sum of OUTBOUND transaction quantities recorded for a product. -/
def outboundTotal (st : Store) (pid : Nat) : Int :=
  (st.transactions.filter
    (fun t => t.product_id == pid && t.type == TransactionType.OUTBOUND)).foldl
    (fun a t => a + t.quantity) 0

/-- The reconciliation invariant: for every product, INBOUND minus OUTBOUND
quantities equal `current_stock`. -/
def reconciledB (st : Store) : Bool :=
  st.products.all (fun p => inboundTotal st p.id - outboundTotal st p.id == p.current_stock)

/-! ## Concrete fixtures used in witnesses and counterexamples -/

def acmeSeller : Seller :=
  { id := 1, name := "Acme", business_id := "BIZ-ACME" }

def abcProduct : Product :=
  { id := 1, seller_id := 1, sku := "ABC-001", product_name := "Abc 001", current_stock := 0 }

/-- A consistent store: one seller, one product with zero stock, no ledger. -/
def demoStore : Store :=
  { sellers := [acmeSeller], products := [abcProduct], transactions := [],
    nextSellerId := 2, nextProductId := 2, nextTransactionId := 1 }

def demoAddAi : AiData :=
  { action := "ADD", seller := "Acme", sku := "ABC-001", qty := 5, location := "" }

def demoCheckAi : AiData :=
  { action := "CHECK", seller := "Acme", sku := "ABC-001", qty := 0, location := "" }

def testProduct : Product :=
  { id := 1, seller_id := 1, sku := "TEST-001", product_name := "Test Product", current_stock := 3 }

/-- A store holding one product with stock 3 (the spec's ship scenario). -/
def testStore : Store :=
  { sellers := [acmeSeller], products := [testProduct], transactions := [],
    nextSellerId := 2, nextProductId := 2, nextTransactionId := 1 }

/-! # Helper lemmas -/

theorem find?_setStockFirstSku (ps : List Product) (sku : String) (v : Int) (p : Product)
    (h : ps.find? (fun q => q.sku == sku) = some p) :
    (setStockFirstSku ps sku v).find? (fun q => q.sku == sku) =
      some { p with current_stock := v } := by
  induction ps with
  | nil => simp at h
  | cons a rest ih =>
    cases ha : (a.sku == sku) with
    | true =>
      simp only [List.find?, ha] at h
      obtain rfl : a = p := by injection h
      simp [setStockFirstSku, List.find?, ha]
    | false =>
      simp only [List.find?, ha] at h
      simp [setStockFirstSku, List.find?, ha, ih h]

theorem find?_append_single (ps : List Product) (p : Product) (pred : Product → Bool)
    (h : ps.find? pred = none) (hp : pred p = true) :
    (ps ++ [p]).find? pred = some p := by
  induction ps with
  | nil => simp [List.find?, hp]
  | cons a rest ih =>
    cases ha : pred a with
    | true => simp [List.find?, ha] at h
    | false =>
      simp only [List.find?, ha] at h
      simp [List.find?, ha, ih h]

theorem setStockFirstSku_append (ps : List Product) (p : Product) (sku : String) (v : Int)
    (h : ps.find? (fun q => q.sku == sku) = none) (hp : (p.sku == sku) = true) :
    setStockFirstSku (ps ++ [p]) sku v = ps ++ [{ p with current_stock := v }] := by
  induction ps with
  | nil => simp [setStockFirstSku, hp]
  | cons a rest ih =>
    cases ha : (a.sku == sku) with
    | true => simp [List.find?, ha] at h
    | false =>
      simp only [List.find?, ha] at h
      simp [setStockFirstSku, ha, ih h]

/-- The success path of `remove_stock`, common to positive and non-positive
quantities: the guard `current_stock < quantity` is the only check. -/
theorem remove_stock_success_core (st : Store) (sku : String) (q : Int)
    (dest : Option String) (staff : Option Nat) (p : Product)
    (hp : get_product_by_sku st sku = some p) (hnlt : ¬ p.current_stock < q) :
    (remove_stock st sku q dest staff).1.success = true ∧
    stockOf (remove_stock st sku q dest staff).2 sku = p.current_stock - q ∧
    ∃ t, (remove_stock st sku q dest staff).2.transactions = st.transactions ++ [t] ∧
      t.type = TransactionType.OUTBOUND ∧ t.quantity = q ∧ t.destination = dest := by
  have hp' : st.products.find? (fun q => q.sku == sku) = some p := hp
  simp only [remove_stock, hp, if_neg hnlt]
  refine ⟨trivial, ?_, ?_⟩
  · unfold stockOf get_product_by_sku log_transaction
    simp only
    rw [find?_setStockFirstSku st.products sku (p.current_stock - q) p hp']
    rfl
  · exact ⟨_, rfl, rfl, rfl, rfl⟩

/-! # Claim theorems -/

/-- C1: for a product with current stock `s` and a requested quantity `q > s`,
`remove_stock` returns a failure result and the whole store — stock and
transaction ledger alike — is exactly the store it started from. -/
theorem remove_stock_insufficient_unchanged (st : Store) (sku : String) (q : Int)
    (dest : Option String) (staff : Option Nat) (p : Product)
    (hp : get_product_by_sku st sku = some p) (hlt : p.current_stock < q) :
    (remove_stock st sku q dest staff).1.success = false ∧
    (remove_stock st sku q dest staff).2 = st := by
  simp only [remove_stock, hp, if_pos hlt]
  exact ⟨trivial, trivial⟩

/-- Witness for C1: stock 3, requested 5. -/
theorem remove_stock_insufficient_unchanged_witness :
    get_product_by_sku testStore "TEST-001" = some testProduct ∧
    testProduct.current_stock < 5 ∧
    (remove_stock testStore "TEST-001" 5 none none).1.success = false ∧
    (remove_stock testStore "TEST-001" 5 none none).2 = testStore :=
  ⟨by decide, by decide,
   (remove_stock_insufficient_unchanged testStore "TEST-001" 5 none none testProduct
     (by decide) (by decide)).1,
   (remove_stock_insufficient_unchanged testStore "TEST-001" 5 none none testProduct
     (by decide) (by decide)).2⟩

/-- C3: for a product with current stock `s` and `0 < q ≤ s`,
`remove_stock(sku, q, destination)` succeeds, the product's stock becomes
`s - q`, and exactly one OUTBOUND transaction with quantity `q` and the given
destination is appended. -/
theorem remove_stock_ship_success (st : Store) (sku : String) (q : Int)
    (dest : Option String) (staff : Option Nat) (p : Product)
    (hp : get_product_by_sku st sku = some p) (_hq : 0 < q) (hle : q ≤ p.current_stock) :
    (remove_stock st sku q dest staff).1.success = true ∧
    stockOf (remove_stock st sku q dest staff).2 sku = p.current_stock - q ∧
    ∃ t, (remove_stock st sku q dest staff).2.transactions = st.transactions ++ [t] ∧
      t.type = TransactionType.OUTBOUND ∧ t.quantity = q ∧ t.destination = dest :=
  remove_stock_success_core st sku q dest staff p hp (not_lt.mpr hle)

/-- Witness for C3: ship 2 of 3 to "Warehouse A". -/
theorem remove_stock_ship_success_witness :
    get_product_by_sku testStore "TEST-001" = some testProduct ∧
    (0 : Int) < 2 ∧ (2 : Int) ≤ testProduct.current_stock ∧
    ((remove_stock testStore "TEST-001" 2 (some "Warehouse A") none).1.success = true ∧
     stockOf (remove_stock testStore "TEST-001" 2 (some "Warehouse A") none).2 "TEST-001" =
       testProduct.current_stock - 2 ∧
     ∃ t, (remove_stock testStore "TEST-001" 2 (some "Warehouse A") none).2.transactions =
         testStore.transactions ++ [t] ∧
       t.type = TransactionType.OUTBOUND ∧ t.quantity = 2 ∧
       t.destination = some "Warehouse A") :=
  ⟨by decide, by decide, by decide,
   remove_stock_ship_success testStore "TEST-001" 2 (some "Warehouse A") none testProduct
     (by decide) (by decide) (by decide)⟩

/-- C10: `remove_stock` never checks that the quantity is positive: for a
(non-negatively stocked) product and any `q ≤ 0` the insufficient-stock guard
`current_stock < q` cannot fire, so the call succeeds, stock becomes `s - q`
(a strict increase for `q < 0`), and an OUTBOUND transaction carrying the
non-positive `q` is appended. -/
theorem remove_stock_nonpositive_succeeds (st : Store) (sku : String) (q : Int)
    (dest : Option String) (staff : Option Nat) (p : Product)
    (hp : get_product_by_sku st sku = some p) (hs : 0 ≤ p.current_stock) (hq : q ≤ 0) :
    (remove_stock st sku q dest staff).1.success = true ∧
    stockOf (remove_stock st sku q dest staff).2 sku = p.current_stock - q ∧
    ∃ t, (remove_stock st sku q dest staff).2.transactions = st.transactions ++ [t] ∧
      t.type = TransactionType.OUTBOUND ∧ t.quantity = q ∧ t.destination = dest :=
  remove_stock_success_core st sku q dest staff p hp (not_lt.mpr (hq.trans hs))

/-- Seller resolution never touches the product table. -/
theorem resolveSeller_products (st : Store) (sn : Option String) :
    (resolveSeller st sn).2.products = st.products := by
  cases sn with
  | none => rfl
  | some s =>
    simp only [resolveSeller]
    cases get_seller_by_name st s <;> simp [create_seller]

/-- Seller resolution never touches the transaction ledger. -/
theorem resolveSeller_transactions (st : Store) (sn : Option String) :
    (resolveSeller st sn).2.transactions = st.transactions := by
  cases sn with
  | none => rfl
  | some s =>
    simp only [resolveSeller]
    cases get_seller_by_name st s <;> simp [create_seller]

/-- The default-seller fallback never touches the product table. -/
theorem ensureSeller_products (st : Store) (o : Option Seller) :
    (ensureSeller st o).2.products = st.products := by
  cases o with
  | some s => rfl
  | none =>
    simp only [ensureSeller]
    cases get_seller_by_name st "Default Seller" <;> simp [create_seller]

/-- The default-seller fallback never touches the transaction ledger. -/
theorem ensureSeller_transactions (st : Store) (o : Option Seller) :
    (ensureSeller st o).2.transactions = st.transactions := by
  cases o with
  | some s => rfl
  | none =>
    simp only [ensureSeller]
    cases get_seller_by_name st "Default Seller" <;> simp [create_seller]

/-- C2: a successful `add_stock(sku, q)` leaves the product's stock at its
prior value plus `q` — the prior value being 0 when the product is created by
this very call — and appends exactly one INBOUND transaction of quantity `q`. -/
theorem add_stock_adds (st : Store) (sku : String) (q : Int) (sn : Option String)
    (staff : Option Nat) (_hq : 0 < q) :
    (add_stock st sku q sn staff).1.success = true ∧
    stockOf (add_stock st sku q sn staff).2 sku = stockOf st sku + q ∧
    ∃ t, (add_stock st sku q sn staff).2.transactions = st.transactions ++ [t] ∧
      t.type = TransactionType.INBOUND ∧ t.quantity = q := by
  have hps : (resolveSeller st sn).2.products = st.products := resolveSeller_products st sn
  have hts : (resolveSeller st sn).2.transactions = st.transactions :=
    resolveSeller_transactions st sn
  have hg : get_product_by_sku (resolveSeller st sn).2 sku = get_product_by_sku st sku := by
    unfold get_product_by_sku; rw [hps]
  cases hp : get_product_by_sku st sku with
  | some p =>
    have hp1 : get_product_by_sku (resolveSeller st sn).2 sku = some p := by rw [hg, hp]
    have hp' : st.products.find? (fun r => r.sku == sku) = some p := hp
    simp only [add_stock, hp1]
    refine ⟨trivial, ?_, ?_⟩
    · have hrhs : stockOf st sku = p.current_stock := by
        unfold stockOf get_product_by_sku; rw [hp']; rfl
      rw [hrhs]
      unfold stockOf get_product_by_sku log_transaction
      simp only
      rw [hps, find?_setStockFirstSku st.products sku (p.current_stock + q) p hp']
      rfl
    · refine ⟨{ id := (resolveSeller st sn).2.nextTransactionId, product_id := p.id,
                staff_id := staff, type := .INBOUND, quantity := q,
                destination := none }, ?_, rfl, rfl⟩
      simp only [log_transaction]
      rw [hts]
  | none =>
    have hp1 : get_product_by_sku (resolveSeller st sn).2 sku = none := by rw [hg, hp]
    have hp' : st.products.find? (fun r => r.sku == sku) = none := hp
    simp only [add_stock, hp1]
    have hesp : (ensureSeller (resolveSeller st sn).2 (resolveSeller st sn).1).2.products =
        st.products := by rw [ensureSeller_products, hps]
    have hest : (ensureSeller (resolveSeller st sn).2 (resolveSeller st sn).1).2.transactions =
        st.transactions := by rw [ensureSeller_transactions, hts]
    refine ⟨trivial, ?_, ?_⟩
    · have hrhs : stockOf st sku = 0 := by
        unfold stockOf get_product_by_sku; rw [hp']; rfl
      rw [hrhs]
      unfold stockOf get_product_by_sku log_transaction create_product
      simp only
      rw [hesp]
      rw [setStockFirstSku_append st.products _ sku _ hp' (by simp)]
      rw [find?_append_single st.products _ _ hp' (by simp)]
      simp
    · refine ⟨{ id := (ensureSeller (resolveSeller st sn).2 (resolveSeller st sn).1).2.nextTransactionId,
                product_id := (ensureSeller (resolveSeller st sn).2 (resolveSeller st sn).1).2.nextProductId,
                staff_id := staff, type := .INBOUND, quantity := q,
                destination := none }, ?_, rfl, rfl⟩
      simp only [log_transaction, create_product]
      rw [hest]

/-- Witness for C2: adding 5 units of a fresh SKU to the demo store. -/
theorem add_stock_adds_witness :
    (0 : Int) < 5 ∧
    ((add_stock demoStore "USB-CBL-001" 5 (some "Acme") none).1.success = true ∧
     stockOf (add_stock demoStore "USB-CBL-001" 5 (some "Acme") none).2 "USB-CBL-001" =
       stockOf demoStore "USB-CBL-001" + 5 ∧
     ∃ t, (add_stock demoStore "USB-CBL-001" 5 (some "Acme") none).2.transactions =
         demoStore.transactions ++ [t] ∧
       t.type = TransactionType.INBOUND ∧ t.quantity = 5) :=
  ⟨by decide, add_stock_adds demoStore "USB-CBL-001" 5 (some "Acme") none (by decide)⟩

/-- Witness for C10: removing -2 from stock 3 succeeds and leaves stock 5. -/
theorem remove_stock_nonpositive_succeeds_witness :
    get_product_by_sku testStore "TEST-001" = some testProduct ∧
    (0 : Int) ≤ testProduct.current_stock ∧ (-2 : Int) ≤ 0 ∧
    ((remove_stock testStore "TEST-001" (-2) none none).1.success = true ∧
     stockOf (remove_stock testStore "TEST-001" (-2) none none).2 "TEST-001" =
       testProduct.current_stock - (-2) ∧
     ∃ t, (remove_stock testStore "TEST-001" (-2) none none).2.transactions =
         testStore.transactions ++ [t] ∧
       t.type = TransactionType.OUTBOUND ∧ t.quantity = -2 ∧ t.destination = none) :=
  ⟨by decide, by decide, by decide,
   remove_stock_nonpositive_succeeds testStore "TEST-001" (-2) none none testProduct
     (by decide) (by decide) (by decide)⟩

/-- C4 (code bug): the reconciliation invariant — INBOUND minus OUTBOUND
transaction quantities equal `current_stock` — holds in the consistent demo
store, and is broken by the webhook's ADD path, which increments
`current_stock` by `qty` without appending any INBOUND `Transaction`
(contrast `add_stock`, which logs one, and the webhook's own SHIP path, which
logs an OUTBOUND one). -/
theorem webhook_add_breaks_reconciliation :
    reconciledB demoStore = true ∧
    reconciledB (whatsapp_webhook_core demoStore demoAddAi).2 = false := by
  decide

/-- C7 (amended): the webhook broadcasts exactly on the turns that resolve a
product and do not return early — that is, unless the product is missing or
the action is SHIP with insufficient stock.  A CHECK-only turn with a
resolved product does broadcast even though nothing was mutated. -/
theorem webhook_broadcast_iff (st : Store) (ai : AiData) :
    ((whatsapp_webhook_core st ai).1.broadcast).isSome = true ↔
      ∃ p, st.products.find? (webhookPred st ai) = some p ∧
        (ai.action = "SHIP" → ai.qty ≤ p.current_stock) := by
  cases hfind : st.products.find? (webhookPred st ai) with
  | none => simp [whatsapp_webhook_core, hfind]
  | some p =>
    simp only [whatsapp_webhook_core, hfind]
    by_cases hA : ai.action = "ADD"
    · simp only [if_pos hA]
      constructor
      · intro _
        exact ⟨p, rfl, fun hS => absurd hS (by rw [hA]; decide)⟩
      · intro _
        rfl
    · simp only [if_neg hA]
      by_cases hS : ai.action = "SHIP"
      · simp only [if_pos hS]
        by_cases hlt : p.current_stock < ai.qty
        · simp only [if_pos hlt]
          constructor
          · intro hcontra
            exact absurd hcontra (by simp)
          · rintro ⟨pw, hpw, himp⟩
            injection hpw with hpp
            subst hpp
            exact absurd (himp hS) (not_le.mpr hlt)
        · simp only [if_neg hlt]
          constructor
          · intro _
            exact ⟨p, rfl, fun _ => not_lt.mp hlt⟩
          · intro _
            rfl
      · simp only [if_neg hS]
        constructor
        · intro _
          exact ⟨p, rfl, fun hcon => absurd hcon hS⟩
        · intro _
          rfl

/-- C7 counterexample: a CHECK-only turn performs no mutation (the store
comes back unchanged) yet a broadcast is emitted — the claim's "never
broadcast for CHECK-only turns" fails on the code. -/
theorem webhook_check_broadcasts :
    (whatsapp_webhook_core demoStore demoCheckAi).2 = demoStore ∧
    (whatsapp_webhook_core demoStore demoCheckAi).1.broadcast =
      some { sku := "ABC-001", stock := 0, seller := "Acme", action := "CHECK" } := by
  decide

/-- C5 counterexample: after a Gemini failure on the input "hello",
`parse_message` returns the heuristic action/seller/sku/qty/location dict,
not `{intent: UNKNOWN, params: {}}`. -/
theorem parse_message_failure_shape_counterexample :
    parse_message .failed "hello" =
      [("action", JsonVal.str "CHECK"), ("seller", JsonVal.str ""),
       ("sku", JsonVal.str "hello"), ("qty", JsonVal.num 0),
       ("location", JsonVal.str "")] ∧
    parse_message .failed "hello" ≠
      [("intent", JsonVal.str "UNKNOWN"), ("params", JsonVal.emptyObj)] := by
  decide

/-- C5 (amended): on every failure of the Gemini pipeline, `parse_message`
returns `_fallback_parse(text)` — a total heuristic result whose `action` is
always one of ADD, SHIP, CHECK — instead of propagating the error. -/
theorem parse_message_failure_fallback (text : String) :
    parse_message .failed text = fallback_parse text ∧
    ∃ a, (parse_message .failed text).lookup "action" = some (JsonVal.str a) ∧
      (a = "ADD" ∨ a = "SHIP" ∨ a = "CHECK") := by
  refine ⟨rfl, fallback_action (pyLower text).data, ?_, ?_⟩
  · rfl
  · unfold fallback_action
    split_ifs <;> simp

/-- C6: a text matching both an ADD keyword and a SHIP keyword (the matchers
run on the lowercased text, making them case-insensitive) is classified
ADD_STOCK, because the ADD category is checked first. -/
theorem fastpath_add_beats_ship (text : String)
    (hadd : add_patterns_match (pyLower text).data = true)
    (_hship : ship_patterns_match (pyLower text).data = true) :
    (parse_intent_from_text text).intent = Intent.ADD_STOCK := by
  simp [parse_intent_from_text, hadd]

/-- Witness for C6: "Add 3 then ship them" matches both keyword sets and is
classified ADD_STOCK. -/
theorem fastpath_add_beats_ship_witness :
    add_patterns_match (pyLower "Add 3 then ship them").data = true ∧
    ship_patterns_match (pyLower "Add 3 then ship them").data = true ∧
    (parse_intent_from_text "Add 3 then ship them").intent = Intent.ADD_STOCK :=
  ⟨by decide, by decide,
   fastpath_add_beats_ship "Add 3 then ship them" (by decide) (by decide)⟩

/-- C8 (amended): the ship scenario parses to SHIP_STOCK with SKU
`USB-CBL-001` (via the product-name mapping) and quantity 5, but the
captured destination is `"warehouse"`: the lazy group of
`r'to\s+([A-Za-z0-9\s]+?)(?:\s|$)'` stops at the first whitespace after
`warehouse`, dropping the trailing `B`. -/
theorem ship_scenario_parse :
    parse_intent_from_text "Ship 5 USB cables to warehouse B" =
      { intent := Intent.SHIP_STOCK, sku := some "USB-CBL-001",
        quantity := some 5, seller := none,
        destination := some "warehouse", confidence := "high" } := by
  decide

/-- C8 counterexample: the destination is not `"warehouse B"` as claimed. -/
theorem ship_scenario_destination_ne :
    (parse_intent_from_text "Ship 5 USB cables to warehouse B").destination ≠
      some "warehouse B" := by
  decide

/-- C9 counterexample: "x7y" contains a digit, yet `extract_quantity` returns
none — the fallback `r'\b(\d+)\b'` needs word boundaries around the digits,
which an embedding inside a word denies. -/
theorem extract_quantity_embedded_digit_none :
    ("x7y".data.any isDigitChar) = true ∧ extract_quantity "x7y" = none := by
  decide

/-- C9 (amended): the fallback guarantee holds for word-bounded integers:
whenever the text contains a bare integer (in the sense of the fallback
pattern `r'\b(\d+)\b'`), `extract_quantity` returns a value. -/
theorem extract_quantity_bare_int_some (text : String)
    (h : firstBareIntAux none (pyLower text).data ≠ none) :
    (extract_quantity text).isSome = true := by
  simp only [extract_quantity]
  cases h1 : scanFor qtyAttemptUnits (pyLower text).data with
  | some n => rfl
  | none =>
  cases h2 : scanFor (qtyAttemptKeySep "add" isSpaceChar) (pyLower text).data with
  | some n => rfl
  | none =>
  cases h3 : scanFor (qtyAttemptKeySep "ship" isSpaceChar) (pyLower text).data with
  | some n => rfl
  | none =>
  cases h4 : scanFor qtyAttemptOfX (pyLower text).data with
  | some n => rfl
  | none =>
  cases h5 : scanFor (qtyAttemptKeySep "quantity" (fun c => c = ':' || isSpaceChar c))
      (pyLower text).data with
  | some n => rfl
  | none =>
  cases h6 : scanFor (qtyAttemptKeySep "unit" (fun c => c = ':' || isSpaceChar c))
      (pyLower text).data with
  | some n => rfl
  | none => exact Option.isSome_iff_ne_none.mpr h

/-- Witness for C9: "bring 7" holds a bare integer and yields a quantity. -/
theorem extract_quantity_bare_int_some_witness :
    firstBareIntAux none (pyLower "bring 7").data ≠ none ∧
    (extract_quantity "bring 7").isSome = true :=
  ⟨by decide, extract_quantity_bare_int_some "bring 7" (by decide)⟩

end Skylit
